import Mathlib

/-!
Shallow embedding of the client-side chat/session state of the
edgeai-rag-platform frontend: the Zustand auth store
(`src/frontend/src/stores/authStore.ts`), the Zustand chat store
(`src/frontend/src/stores/chatStore.ts`), the send-message mutation
lifecycle (`src/frontend/src/hooks/useChat.ts`), the UI submit guard
(`src/frontend/src/pages/Chat.tsx`), the `askQuestion` request builder
(`src/frontend/src/api/queries.ts`) and the axios response interceptor
(`src/frontend/src/api/client.ts`).

TypeScript `T | undefined` / optional fields become `Option T`; the
JavaScript `number` values carried opaquely by these flows (scores,
confidences, elapsed milliseconds) are represented by `Int`, since no
claim computes with them.  Environment-supplied values (`Date.now()`,
`new Date().toISOString()`, the outcome of a network call) are passed
in as explicit parameters.
-/

namespace EdgeAI

/-- Structure `User` from `src/frontend/src/types/index.ts`. -/
structure User where
  id : String
  email : String
  full_name : Option String
  is_active : Bool
  is_superuser : Bool
  created_at : String
  updated_at : String
deriving DecidableEq, Repr

/-- Structure `SourceReference` from `src/frontend/src/types/index.ts`. -/
structure SourceReference where
  document_id : String
  document_name : String
  chunk_id : String
  content : String
  score : Int
deriving DecidableEq, Repr

/-- Union `AgentFramework` from `src/frontend/src/types/index.ts`. -/
inductive AgentFramework where
  | custom
  | langgraph
  | crewai
  | genai
deriving DecidableEq, Repr

/-- Structure `RoutingInfo` from `src/frontend/src/types/index.ts`. -/
structure RoutingInfo where
  selected_agent : String
  confidence : Int
  reason : String
  framework : Option AgentFramework
deriving DecidableEq, Repr

/-- The message role union `'user' | 'assistant'`. -/
inductive Role where
  | user
  | assistant
deriving DecidableEq, Repr

/-- Structure `Message` from `src/frontend/src/types/index.ts`. -/
structure Message where
  id : String
  role : Role
  content : String
  timestamp : String
  agent : Option String
  framework : Option AgentFramework
  sources : Option (List SourceReference)
  routing : Option RoutingInfo
  executionTime : Option Int
  reasoningTrace : Option String
deriving DecidableEq, Repr

/-- Type `QueryMode` from `src/frontend/src/types/index.ts` is a union of
string literals; it is carried as the literal string. -/
abbrev QueryMode := String

/-- Structure `QueryResponse` from `src/frontend/src/types/index.ts` (the
`phases` open record is never read by the flows under study and is
carried as an opaque option of key/value pairs). -/
structure QueryResponse where
  id : String
  query : String
  response : String
  sources : List SourceReference
  agent_used : String
  framework : Option AgentFramework
  created_at : String
  routing : Option RoutingInfo
  execution_time_ms : Option Int
  reasoning_trace : Option String
deriving DecidableEq, Repr

/-- Structure `ChatHistory` from `src/frontend/src/types/index.ts`. -/
structure ChatHistory where
  id : String
  title : String
  messages : List Message
  created_at : String
  updated_at : String
deriving DecidableEq, Repr

/-! ## Auth store (`src/frontend/src/stores/authStore.ts`) -/

/-- The state slice of `AuthState`. -/
structure AuthState where
  user : Option User
  token : Option String
  isAuthenticated : Bool
deriving DecidableEq, Repr

/-- The initial auth-store state: `user: null, token: null,
isAuthenticated: false`. -/
def initialAuthState : AuthState :=
  { user := none, token := none, isAuthenticated := false }

/-- Operation `setAuth(user, token)`: unconditionally replaces session state and
marks authenticated.  Both arguments are non-null by their TypeScript
types (`User`, `string`). -/
def setAuth (_s : AuthState) (u : User) (t : String) : AuthState :=
  { user := some u, token := some t, isAuthenticated := true }

/-- Operation `logout()`: clears all three fields. -/
def logout (_s : AuthState) : AuthState :=
  { user := none, token := none, isAuthenticated := false }

/-- Operation `setUser(user)`: `set({ user })` — replaces only the `user` field. -/
def setUser (s : AuthState) (u : User) : AuthState :=
  { s with user := some u }

/-- Operation `refreshUser()`: awaits `api.get('/auth/me')`; on success runs
`set({ user: response.data })`, on failure only logs (`console.error`)
and changes nothing.  The network outcome is the `fetched` parameter:
`some u` for a successful fetch of identity `u`, `none` for a rejected
call. -/
def refreshUser (s : AuthState) (fetched : Option User) : AuthState :=
  match fetched with
  | some u => { s with user := some u }
  | none => s

/-- One invocation of an auth-store operation, with its typed
arguments; `refreshUserOp` carries the fetch outcome. -/
inductive AuthOp where
  | setAuthOp (u : User) (t : String)
  | logoutOp
  | setUserOp (u : User)
  | refreshUserOp (fetched : Option User)
deriving DecidableEq, Repr

/-- Apply one auth-store operation. -/
def applyAuthOp (s : AuthState) : AuthOp → AuthState
  | .setAuthOp u t => setAuth s u t
  | .logoutOp => logout s
  | .setUserOp u => setUser s u
  | .refreshUserOp fetched => refreshUser s fetched

/-- Run a sequence of auth-store operations from the initial state. -/
def runAuthOps (ops : List AuthOp) : AuthState :=
  ops.foldl applyAuthOp initialAuthState

/-- The spec's session invariant:
`isAuthenticated == (user != null && token != null)`. -/
def authInvariant (s : AuthState) : Prop :=
  s.isAuthenticated = (s.user.isSome && s.token.isSome)

instance (s : AuthState) : Decidable (authInvariant s) := by
  unfold authInvariant; infer_instance

/-! ## Chat store (`src/frontend/src/stores/chatStore.ts`) -/

/-- The state slice of `ChatState`. -/
structure ChatState where
  currentConversation : List Message
  conversations : List ChatHistory
  currentConversationId : Option String
  isLoading : Bool
deriving DecidableEq, Repr

/-- The initial chat-store state. -/
def initialChatState : ChatState :=
  { currentConversation := [], conversations := [],
    currentConversationId := none, isLoading := false }

/-- Operation `setCurrentConversation(messages)`: replaces the transcript
wholesale with the supplied list. -/
def setCurrentConversation (s : ChatState) (messages : List Message) : ChatState :=
  { s with currentConversation := messages }

/-- Operation `addMessage(message)`: appends to the transcript
(`[...state.currentConversation, message]`). -/
def addMessage (s : ChatState) (m : Message) : ChatState :=
  { s with currentConversation := s.currentConversation ++ [m] }

/-- Operation `setConversations(conversations)`. -/
def setConversations (s : ChatState) (cs : List ChatHistory) : ChatState :=
  { s with conversations := cs }

/-- Operation `setCurrentConversationId(id)`. -/
def setCurrentConversationId (s : ChatState) (i : Option String) : ChatState :=
  { s with currentConversationId := i }

/-- Operation `setLoading(loading)`. -/
def setLoading (s : ChatState) (b : Bool) : ChatState :=
  { s with isLoading := b }

/-- Operation `clearCurrentConversation()`: resets the transcript to empty and
the current conversation id to null. -/
def clearCurrentConversation (s : ChatState) : ChatState :=
  { s with currentConversation := [], currentConversationId := none }

/-- One invocation of a chat-store operation, with its arguments. -/
inductive ChatOp where
  | setCurrentConversationOp (messages : List Message)
  | addMessageOp (m : Message)
  | setConversationsOp (cs : List ChatHistory)
  | setCurrentConversationIdOp (i : Option String)
  | setLoadingOp (b : Bool)
  | clearCurrentConversationOp
deriving DecidableEq, Repr

/-- Apply one chat-store operation. -/
def applyChatOp (s : ChatState) : ChatOp → ChatState
  | .setCurrentConversationOp messages => setCurrentConversation s messages
  | .addMessageOp m => addMessage s m
  | .setConversationsOp cs => setConversations s cs
  | .setCurrentConversationIdOp i => setCurrentConversationId s i
  | .setLoadingOp b => setLoading s b
  | .clearCurrentConversationOp => clearCurrentConversation s

/-! ## JavaScript string trimming

`String.prototype.trim` strips the JS WhiteSpace and LineTerminator
characters from both ends; the guard `message.trim() && !isLoading`
treats the empty string as falsy. -/

/-- The characters `String.prototype.trim` removes: TAB, LF, VT, FF,
CR, SP, NBSP, the Unicode `Zs` space separators, LS, PS and the BOM. -/
def isJsWhitespace (c : Char) : Bool :=
  c.val ∈ ([0x9, 0xA, 0xB, 0xC, 0xD, 0x20, 0xA0, 0x1680,
    0x2000, 0x2001, 0x2002, 0x2003, 0x2004, 0x2005, 0x2006, 0x2007,
    0x2008, 0x2009, 0x200A, 0x2028, 0x2029, 0x202F, 0x205F, 0x3000,
    0xFEFF] : List UInt32)

/-- Strip leading and trailing JS whitespace from a character list. -/
def jsTrimList (l : List Char) : List Char :=
  ((l.dropWhile isJsWhitespace).reverse.dropWhile isJsWhitespace).reverse

/-- Function `message.trim()`. -/
def jsTrim (s : String) : String :=
  String.mk (jsTrimList s.data)

/-- A string made only of JS whitespace (the empty string included). -/
def whitespaceOnly (s : String) : Bool :=
  s.data.all isJsWhitespace

/-! ## The `ask` request (`src/frontend/src/api/queries.ts`) -/

/-- A JSON value, as axios serializes request bodies with
`JSON.stringify`. -/
inductive Json where
  | jstr (s : String)
  | jnum (n : Int)
  | jarr (xs : List Json)
  | jobj (fields : List (String × Json))
deriving Repr

/-- The object literal passed to
`api.post('/queries/ask', { query, document_ids, mode, agent_name })`
in `askQuestion(query, documentIds?, mode = 'auto', agentName?)`:
each optional argument that was not supplied is `undefined` here. -/
structure AskBodyLiteral where
  query : String
  document_ids : Option (List String)
  mode : QueryMode
  agent_name : Option String
deriving DecidableEq, Repr

/-- Serialization: `JSON.stringify` drops object fields whose value is `undefined`,
so the serialized `/queries/ask` body keeps only the present fields,
in literal order. -/
def serializeAskBody (b : AskBodyLiteral) : List (String × Json) :=
  [("query", Json.jstr b.query)]
    ++ (match b.document_ids with
        | some ids => [("document_ids", Json.jarr (ids.map Json.jstr))]
        | none => [])
    ++ [("mode", Json.jstr b.mode)]
    ++ (match b.agent_name with
        | some a => [("agent_name", Json.jstr a)]
        | none => [])

/-! ## The send-message mutation (`src/frontend/src/hooks/useChat.ts`) -/

/-- The variables of `sendMessageMutation.mutate({ message,
documentIds, mode })`. -/
structure SendVariables where
  message : String
  documentIds : Option (List String)
  mode : QueryMode
deriving DecidableEq, Repr

/-- The body `mutationFn` sends: `askQuestion(message, documentIds,
mode)` leaves `agentName` undefined, so `agent_name` is absent. -/
def askRequestOf (v : SendVariables) : AskBodyLiteral :=
  { query := v.message, document_ids := v.documentIds,
    mode := v.mode, agent_name := none }

/-- A toast pushed by `addToast(text, kind)`. -/
structure Toast where
  text : String
  kind : String
deriving DecidableEq, Repr

/-- The error value reaching `onError`:
`error.response?.data?.detail` as the chain evaluates
(`none` when any link is missing, `some d` otherwise). -/
structure SendError where
  responseDataDetail : Option String
deriving DecidableEq, Repr

/-- The user message built in `onSuccess` (`idNow` is `Date.now()`,
`ts` the `new Date().toISOString()` of that handler run). -/
def mkUserMessage (idNow : Nat) (text : String) (ts : String) : Message :=
  { id := toString idNow, role := .user, content := text, timestamp := ts,
    agent := none, framework := none, sources := none, routing := none,
    executionTime := none, reasoningTrace := none }

/-- The assistant message built in `onSuccess` from the payload `d`. -/
def mkAssistantMessage (idNow : Nat) (d : QueryResponse) (ts : String) : Message :=
  { id := toString (idNow + 1), role := .assistant, content := d.response,
    timestamp := ts, agent := some d.agent_used, framework := none,
    sources := some d.sources, routing := d.routing,
    executionTime := d.execution_time_ms, reasoningTrace := none }

/-- Handler `sendMessageMutation.onSuccess(data, variables)`: builds the user
and assistant messages, appends them in that order, then clears
`loading`. -/
def sendMessageOnSuccess (s : ChatState) (d : QueryResponse)
    (vars : SendVariables) (idNow : Nat) (ts1 ts2 : String) : ChatState :=
  let userMessage := mkUserMessage idNow vars.message ts1
  let assistantMessage := mkAssistantMessage idNow d ts2
  setLoading (addMessage (addMessage s userMessage) assistantMessage) false

/-- Handler `sendMessageMutation.onError(error)`: clears `loading` and pushes
`addToast(error.response?.data?.detail || 'Failed to send message.
Please try again.', 'error')` (the `||` falls back on a missing or
empty detail string). -/
def sendMessageOnError (s : ChatState) (e : SendError) : ChatState × Toast :=
  let text :=
    match e.responseDataDetail with
    | some d => if d = "" then "Failed to send message. Please try again." else d
    | none => "Failed to send message. Please try again."
  (setLoading s false, { text := text, kind := "error" })

/-- The network outcome of the `askQuestion` call inside
`mutationFn`. -/
inductive AskOutcome where
  | ok (d : QueryResponse)
  | err (e : SendError)
deriving DecidableEq, Repr

/-- One whole send-message exchange: `mutationFn` runs
`setLoading(true)` and awaits the backend; the resolved payload goes
through `onSuccess`, a rejection through `onError` (which also emits a
toast). -/
def sendMessageExchange (s : ChatState) (vars : SendVariables)
    (outcome : AskOutcome) (idNow : Nat) (ts1 ts2 : String) :
    ChatState × Option Toast :=
  let s1 := setLoading s true
  match outcome with
  | .ok d => (sendMessageOnSuccess s1 d vars idNow ts1 ts2, none)
  | .err e =>
      let (s2, t) := sendMessageOnError s1 e
      (s2, some t)

/-! ## The UI submit path (`src/frontend/src/pages/Chat.tsx`) -/

/-- Handler `handleSendMessage` of the Chat page: guarded by
`if (message.trim() && !isLoading)`; on pass it computes
`docIds = selectedDocuments.length > 0 ? selectedDocuments : undefined`
and calls `sendMessage(message.trim(), docIds, selectedMode)`, which
starts the mutation (`setLoading(true)` and exactly one network call);
on fail nothing happens.  Returns the updated store state and the
variables of the dispatched network call, if any. -/
def handleSendMessage (s : ChatState) (message : String)
    (selectedDocuments : List String) (selectedMode : QueryMode) :
    ChatState × Option SendVariables :=
  if jsTrim message ≠ "" ∧ s.isLoading = false then
    let docIds := if selectedDocuments.length > 0 then some selectedDocuments else none
    (setLoading s true,
     some { message := jsTrim message, documentIds := docIds, mode := selectedMode })
  else
    (s, none)

/-! ## The HTTP client wrapper (`src/frontend/src/api/client.ts`) -/

/-- The persisted session artifacts in `localStorage`: the values
under `STORAGE_KEYS.TOKEN` (`edgeai_token`) and `STORAGE_KEYS.USER`
(`edgeai_user`). -/
structure LocalSession where
  tokenItem : Option String
  userItem : Option String
deriving DecidableEq, Repr

/-- The result of the response interceptor's error branch: the
storage afterwards, and the redirect target assigned to
`window.location.href`, if any. -/
structure InterceptResult where
  storage : LocalSession
  redirect : Option String
deriving DecidableEq, Repr

/-- Handler of `api.interceptors.response` errors: when
`error.response?.status === 401` it removes both storage keys and, if
`window.location.pathname` is neither `/login` nor `/register`, sets
`window.location.href = '/login'`; any other error passes through
untouched.  `status` is `none` when the error carries no response. -/
def responseInterceptorOnError (status : Option Nat) (currentPath : String)
    (ls : LocalSession) : InterceptResult :=
  if status = some 401 then
    let ls' : LocalSession := { tokenItem := none, userItem := none }
    if currentPath ≠ "/login" ∧ currentPath ≠ "/register" then
      { storage := ls', redirect := some "/login" }
    else
      { storage := ls', redirect := none }
  else
    { storage := ls, redirect := none }

/-! ## The two stores side by side -/

/-- The combined client state: the auth store and the chat store are
separate Zustand stores; each operation's `set` writes only its own
store. -/
structure AppState where
  auth : AuthState
  chat : ChatState
deriving DecidableEq, Repr

/-- An operation of either store. -/
inductive AppOp where
  | authOp (op : AuthOp)
  | chatOp (op : ChatOp)
deriving DecidableEq, Repr

/-- Apply one operation to the combined state: an auth-store operation
updates the auth slice, a chat-store operation the chat slice. -/
def applyAppOp (s : AppState) : AppOp → AppState
  | .authOp op => { s with auth := applyAuthOp s.auth op }
  | .chatOp op => { s with chat := applyChatOp s.chat op }

/-! ## Concrete values used to instantiate the theorems -/

/-- Concrete identity used in witnesses. -/
def user0 : User :=
  { id := "u-1", email := "a@b.com", full_name := some "Ada",
    is_active := true, is_superuser := false,
    created_at := "2026-01-01", updated_at := "2026-01-01" }

/-- Concrete user-role message used in counterexamples and witnesses. -/
def msg0 : Message :=
  { id := "1", role := .user, content := "hello", timestamp := "t0",
    agent := none, framework := none, sources := none, routing := none,
    executionTime := none, reasoningTrace := none }

/-- Auth-store state holding a full session, used in witnesses. -/
def authState1 : AuthState :=
  { user := some user0, token := some "tok", isAuthenticated := true }

/-- Chat-store state holding one message. -/
def chatState0 : ChatState :=
  { currentConversation := [msg0], conversations := [],
    currentConversationId := none, isLoading := false }

/-- Predicate picking out the two chat-store operations that replace
the transcript wholesale instead of extending it. -/
def replacesTranscript : ChatOp → Bool
  | .setCurrentConversationOp _ => true
  | .clearCurrentConversationOp => true
  | _ => false

/-! ## Helper lemmas -/

/-- Strengthened auth-store induction hypothesis: the spec invariant
together with the structural fact that a token is only ever stored
alongside a user. -/
def authStrongInv (s : AuthState) : Prop :=
  authInvariant s ∧ (s.token.isSome = true → s.user.isSome = true)

theorem authStrongInv_step (s : AuthState) (op : AuthOp)
    (h : authStrongInv s) : authStrongInv (applyAuthOp s op) := by
  obtain ⟨h1, h2⟩ := h
  unfold authInvariant at h1
  cases op with
  | setAuthOp u t =>
      constructor <;> simp [applyAuthOp, setAuth, authInvariant]
  | logoutOp =>
      constructor <;> simp [applyAuthOp, logout, authInvariant]
  | setUserOp u =>
      refine ⟨?_, by simp [applyAuthOp, setUser]⟩
      unfold authInvariant
      simp only [applyAuthOp, setUser, Option.isSome_some, Bool.true_and]
      cases htok : s.token with
      | none => simpa [htok] using h1
      | some t =>
          have hu : s.user.isSome = true := h2 (by simp [htok])
          simp [htok] at h1 ⊢
          simpa [hu] using h1
  | refreshUserOp fetched =>
      cases fetched with
      | none => exact ⟨h1, h2⟩
      | some u =>
          refine ⟨?_, by simp [applyAuthOp, refreshUser]⟩
          unfold authInvariant
          simp only [applyAuthOp, refreshUser, Option.isSome_some, Bool.true_and]
          cases htok : s.token with
          | none => simpa [htok] using h1
          | some t =>
              have hu : s.user.isSome = true := h2 (by simp [htok])
              simp [htok] at h1 ⊢
              simpa [hu] using h1

theorem authStrongInv_foldl (ops : List AuthOp) (s : AuthState)
    (h : authStrongInv s) : authStrongInv (ops.foldl applyAuthOp s) := by
  induction ops generalizing s with
  | nil => exact h
  | cons op rest ih => exact ih _ (authStrongInv_step s op h)

theorem jsTrim_of_whitespaceOnly (m : String)
    (h : whitespaceOnly m = true) : jsTrim m = "" := by
  unfold whitespaceOnly at h
  rw [List.all_eq_true] at h
  have hdrop : m.data.dropWhile isJsWhitespace = [] := by
    rw [List.dropWhile_eq_nil_iff]
    intro x hx
    exact h x hx
  unfold jsTrim jsTrimList
  rw [hdrop]
  rfl

/-! ## The claims -/

/-- C1.  A send-message exchange whose backend call resolves with
payload `d` appends exactly two messages to the transcript — first a
user-role message carrying the submitted text, then an assistant-role
message whose content is `d.response` and whose agent, sources and
routing fields are `d.agent_used`, `d.sources` and `d.routing` — and
clears the store's loading flag. -/
theorem sendMessage_success_appends_pair (s : ChatState)
    (vars : SendVariables) (d : QueryResponse) (idNow : Nat)
    (ts1 ts2 : String) :
    (sendMessageExchange s vars (.ok d) idNow ts1 ts2).1.currentConversation
      = s.currentConversation
        ++ [mkUserMessage idNow vars.message ts1, mkAssistantMessage idNow d ts2]
    ∧ (mkUserMessage idNow vars.message ts1).role = Role.user
    ∧ (mkUserMessage idNow vars.message ts1).content = vars.message
    ∧ (mkAssistantMessage idNow d ts2).role = Role.assistant
    ∧ (mkAssistantMessage idNow d ts2).content = d.response
    ∧ (mkAssistantMessage idNow d ts2).agent = some d.agent_used
    ∧ (mkAssistantMessage idNow d ts2).sources = some d.sources
    ∧ (mkAssistantMessage idNow d ts2).routing = d.routing
    ∧ (sendMessageExchange s vars (.ok d) idNow ts1 ts2).1.isLoading = false := by
  refine ⟨?_, rfl, rfl, rfl, rfl, rfl, rfl, rfl, rfl⟩
  simp [sendMessageExchange, sendMessageOnSuccess, addMessage, setLoading]

/-- C2.  A send-message exchange whose backend call rejects leaves the
transcript (and the rest of the conversation data) exactly as before
the call, sets the loading flag back to false, and its only other
effect is one transient error toast. -/
theorem sendMessage_error_leaves_transcript (s : ChatState)
    (vars : SendVariables) (e : SendError) (idNow : Nat)
    (ts1 ts2 : String) :
    (sendMessageExchange s vars (.err e) idNow ts1 ts2).1.currentConversation
      = s.currentConversation
    ∧ (sendMessageExchange s vars (.err e) idNow ts1 ts2).1.isLoading = false
    ∧ (sendMessageExchange s vars (.err e) idNow ts1 ts2).1.conversations
      = s.conversations
    ∧ (sendMessageExchange s vars (.err e) idNow ts1 ts2).1.currentConversationId
      = s.currentConversationId
    ∧ ∃ t : Toast,
        (sendMessageExchange s vars (.err e) idNow ts1 ts2).2 = some t
        ∧ t.kind = "error" := by
  refine ⟨rfl, rfl, rfl, rfl, ?_⟩
  exact ⟨(sendMessageOnError (setLoading s true) e).2, rfl, rfl⟩

/-- C3.  In every auth-store state reachable from the initial state by
any sequence of `setAuth`, `logout`, `setUser` and `refreshUser`
invocations (with typed, non-null arguments), the invariant
`isAuthenticated == (user != null && token != null)` holds. -/
theorem auth_invariant_reachable (ops : List AuthOp) :
    authInvariant (runAuthOps ops) :=
  (authStrongInv_foldl ops initialAuthState
    ⟨by decide, by decide⟩).1

/-- C4 counterexample.  The claim that the previous transcript is a
prefix of the new one after every chat-store operation other than
`clearCurrentConversation` fails: `setCurrentConversation` (here with
the empty list, on a transcript holding one message) replaces the
transcript wholesale without being the new-conversation action. -/
theorem chat_append_only_counterexample :
    ChatOp.setCurrentConversationOp [] ≠ ChatOp.clearCurrentConversationOp
    ∧ ¬ (chatState0.currentConversation
          <+: (applyChatOp chatState0
                (ChatOp.setCurrentConversationOp [])).currentConversation) := by
  constructor
  · intro h
    cases h
  · intro h
    have := h.length_le
    simp [chatState0, applyChatOp, setCurrentConversation] at this

/-- C4 amended.  Every chat-store operation other than the two
wholesale-replacing ones (`clearCurrentConversation`, which resets the
transcript to empty, and `setCurrentConversation`, which installs the
supplied message list) leaves the previous transcript as a prefix of
the new one; no operation mutates an existing message or deletes an
individual message. -/
theorem chat_append_only_amended (s : ChatState) (op : ChatOp)
    (h : replacesTranscript op = false) :
    s.currentConversation <+: (applyChatOp s op).currentConversation := by
  cases op with
  | setCurrentConversationOp ms => simp [replacesTranscript] at h
  | addMessageOp m => exact List.prefix_append _ _
  | setConversationsOp cs => exact List.prefix_refl _
  | setCurrentConversationIdOp i => exact List.prefix_refl _
  | setLoadingOp b => exact List.prefix_refl _
  | clearCurrentConversationOp => simp [replacesTranscript] at h

/-- C4 witness for the amended theorem at a concrete input. -/
theorem chat_append_only_amended_witness :
    replacesTranscript (ChatOp.addMessageOp msg0) = false
    ∧ chatState0.currentConversation
        <+: (applyChatOp chatState0 (ChatOp.addMessageOp msg0)).currentConversation :=
  ⟨by decide,
   chat_append_only_amended chatState0 (ChatOp.addMessageOp msg0) (by decide)⟩

/-- C5.  While the conversation store's loading flag is true, the UI
submit path performs no network call and changes nothing: the guard
`message.trim() && !isLoading` fails, so at most one ask exchange is in
flight at a time. -/
theorem send_while_loading_no_call (s : ChatState) (message : String)
    (docs : List String) (mode : QueryMode) (h : s.isLoading = true) :
    handleSendMessage s message docs mode = (s, none) := by
  unfold handleSendMessage
  rw [if_neg]
  intro hc
  rw [h] at hc
  exact Bool.noConfusion hc.2

/-- C5 witness at a concrete loading state. -/
theorem send_while_loading_no_call_witness :
    ({ initialChatState with isLoading := true } : ChatState).isLoading = true
    ∧ handleSendMessage { initialChatState with isLoading := true }
        "hello" ["doc-1"] "auto"
      = ({ initialChatState with isLoading := true }, none) :=
  ⟨rfl,
   send_while_loading_no_call { initialChatState with isLoading := true }
     "hello" ["doc-1"] "auto" rfl⟩

/-- C6.  Submitting a string made only of whitespace (the empty string
included) performs no network call and leaves the conversation store —
its loading flag in particular — unchanged. -/
theorem whitespace_send_no_call (s : ChatState) (message : String)
    (docs : List String) (mode : QueryMode)
    (h : whitespaceOnly message = true) :
    handleSendMessage s message docs mode = (s, none) := by
  unfold handleSendMessage
  rw [if_neg]
  intro hc
  exact hc.1 (jsTrim_of_whitespaceOnly message h)

/-- C6 witness on the three-character input of one space, one tab and
one newline. -/
theorem whitespace_send_no_call_witness :
    whitespaceOnly " \t\n" = true
    ∧ handleSendMessage chatState0 " \t\n" [] "auto" = (chatState0, none) :=
  ⟨by decide, whitespace_send_no_call chatState0 " \t\n" [] "auto" (by decide)⟩

/-- C7.  Submitting the question `What is the Q3 revenue?` with mode
`rag` and selected documents `["doc-1"]` dispatches exactly one ask
call whose serialized request body holds exactly the fields `query`,
`document_ids` and `mode` with those values — `agent_name`, being
undefined, is dropped by serialization. -/
theorem ask_request_body_exact :
    (handleSendMessage initialChatState "What is the Q3 revenue?"
        ["doc-1"] "rag").2.map (fun v => serializeAskBody (askRequestOf v))
      = some [("query", Json.jstr "What is the Q3 revenue?"),
              ("document_ids", Json.jarr [Json.jstr "doc-1"]),
              ("mode", Json.jstr "rag")] := by
  rfl

/-- C8.  A 401 error response makes the client wrapper remove both
persisted session artifacts and redirect to the login screen exactly
when the current path is neither the login nor the registration
screen; every non-401 error leaves the storage untouched and triggers
no redirect. -/
theorem unauthorized_response_clears_session (status : Option Nat)
    (path : String) (ls : LocalSession) :
    ((responseInterceptorOnError (some 401) path ls).storage
        = { tokenItem := none, userItem := none }
      ∧ ((responseInterceptorOnError (some 401) path ls).redirect = some "/login"
          ↔ (path ≠ "/login" ∧ path ≠ "/register")))
    ∧ (status ≠ some 401 →
        responseInterceptorOnError status path ls
          = { storage := ls, redirect := none }) := by
  refine ⟨⟨?_, ?_⟩, ?_⟩
  · unfold responseInterceptorOnError
    rw [if_pos rfl]
    split <;> rfl
  · unfold responseInterceptorOnError
    rw [if_pos rfl]
    constructor
    · intro h
      by_contra hc
      rw [if_neg hc] at h
      exact Option.noConfusion h
    · intro h
      rw [if_pos h]
  · intro h
    unfold responseInterceptorOnError
    rw [if_neg h]

/-- C8 witness: a 401 on the chat page clears both artifacts and
redirects; a 500 changes nothing. -/
theorem unauthorized_response_clears_session_witness :
    (responseInterceptorOnError (some 401) "/chat"
        { tokenItem := some "tok", userItem := some "usr" }).storage
      = { tokenItem := none, userItem := none }
    ∧ (responseInterceptorOnError (some 401) "/chat"
        { tokenItem := some "tok", userItem := some "usr" }).redirect
      = some "/login"
    ∧ responseInterceptorOnError (some 500) "/chat"
        { tokenItem := some "tok", userItem := some "usr" }
      = { storage := { tokenItem := some "tok", userItem := some "usr" },
          redirect := none } :=
  ⟨(unauthorized_response_clears_session (some 500) "/chat"
      { tokenItem := some "tok", userItem := some "usr" }).1.1,
   (unauthorized_response_clears_session (some 500) "/chat"
      { tokenItem := some "tok", userItem := some "usr" }).1.2.mpr (by decide),
   (unauthorized_response_clears_session (some 500) "/chat"
      { tokenItem := some "tok", userItem := some "usr" }).2 (by decide)⟩

/-- C9.  The user refresh touches at most the `user` field: `token`
and `isAuthenticated` are unchanged whatever the fetch outcome; a
successful fetch overwrites `user` with the fetched identity, and a
failed fetch leaves the whole state untouched (so no error escapes and
nothing user-visible happens). -/
theorem refreshUser_frame (s : AuthState) (fetched : Option User) :
    (refreshUser s fetched).token = s.token
    ∧ (refreshUser s fetched).isAuthenticated = s.isAuthenticated
    ∧ (∀ u : User, fetched = some u → (refreshUser s fetched).user = some u)
    ∧ (fetched = none → refreshUser s fetched = s) := by
  cases fetched with
  | none => exact ⟨rfl, rfl, fun u h => Option.noConfusion h, fun _ => rfl⟩
  | some u =>
      refine ⟨rfl, rfl, fun v h => ?_, fun h => Option.noConfusion h⟩
      cases h
      rfl

/-- C9 witness: refreshing with a fetched identity keeps the token and
flag, and a failed refresh keeps the whole state. -/
theorem refreshUser_frame_witness :
    (refreshUser initialAuthState (some user0)).token = initialAuthState.token
    ∧ (refreshUser initialAuthState (some user0)).user = some user0
    ∧ refreshUser authState1 none = authState1 :=
  ⟨(refreshUser_frame initialAuthState (some user0)).1,
   (refreshUser_frame initialAuthState (some user0)).2.2.1 user0 rfl,
   (refreshUser_frame authState1 none).2.2.2 rfl⟩

/-- C10.  Invoking the auth store's `logout` operation leaves the
entire chat store unchanged: transcript, conversations list, current
conversation id and loading flag all keep their prior values. -/
theorem logout_preserves_chat (s : AppState) :
    (applyAppOp s (.authOp .logoutOp)).chat.currentConversation
      = s.chat.currentConversation
    ∧ (applyAppOp s (.authOp .logoutOp)).chat.conversations
      = s.chat.conversations
    ∧ (applyAppOp s (.authOp .logoutOp)).chat.currentConversationId
      = s.chat.currentConversationId
    ∧ (applyAppOp s (.authOp .logoutOp)).chat.isLoading
      = s.chat.isLoading :=
  ⟨rfl, rfl, rfl, rfl⟩

end EdgeAI
